import Mathlib

/-!
# Verification of the green-button-web pipeline

Shallow embedding of the Green Button XML → CSV pipeline:
the `GreenButtonParser` class (entry classification, relationship
inference, flattening, timestamp formatting) and the `CSVExporter`
class (CSV encoding, preview, validation).

Modelling conventions:
* JS `Map`s become association lists `List (String × α)` in insertion
  order; `Map.set` is `mapSet` (replace in place or append) and
  `Map.get` is `mapGet` (first match).
* JS numbers are modelled as exact integers (`Int`) where the code
  stores `parseInt` results, and as exact rationals (`ℚ`) where the
  code does arithmetic (`Math.pow`, division); IEEE-754 rounding of
  doubles is not modelled.
* JS `null`/`undefined` become `none`; JS truthiness on numbers is
  `jsTruthyInt` (`0` and `null` are falsy), on strings `jsTruthyStr`
  (`""` and `null` are falsy).
* A `NaN` produced by `parseInt` on non-numeric text is modelled as
  `none` (for stored fields) resp. `0` (for `powerOfTenMultiplier`);
  no claim exercises those corners.
-/

/-- JS truthiness for a nullable integer: `null` and `0` are falsy. -/
def jsTruthyInt : Option Int → Bool
  | none => false
  | some n => decide (n ≠ 0)

/-- JS truthiness for a nullable string: `null` and `""` are falsy. -/
def jsTruthyStr : Option String → Bool
  | none => false
  | some s => decide (s ≠ "")

/-- JS `parseInt(s)`: skip leading whitespace, optional sign, read a
decimal digit run; `none` models `NaN` (no digits). -/
def jsParseInt (s : String) : Option Int :=
  let l := s.data.dropWhile (fun c => c.isWhitespace)
  let p : Bool × List Char :=
    match l with
    | '-' :: rest => (true, rest)
    | '+' :: rest => (false, rest)
    | _ => (false, l)
  let digits := p.2.takeWhile (fun c => c.isDigit)
  if digits.isEmpty then none
  else
    let n : Nat := digits.foldl (fun acc c => acc * 10 + (c.toNat - '0'.toNat)) 0
    some (if p.1 then -(n : Int) else (n : Int))

/-- `parseInt(text) || null`: absent text, `NaN`, and `0` all collapse
to `null` (the `|| null` idiom used throughout the parser). -/
def parseIntOrNull (t : Option String) : Option Int :=
  match t with
  | none => none
  | some s =>
    match jsParseInt s with
    | none => none
    | some n => if n = 0 then none else some n

/-- `Number.prototype.toFixed(2)` on an exact rational: round to the
nearest hundredth (ties as in `round`, i.e. half up) and print with
exactly two decimal places. -/
def toFixed2 (q : ℚ) : String :=
  let n : Int := round (q * 100)
  let sign := if n < 0 then "-" else ""
  let a := n.natAbs
  sign ++ toString (a / 100) ++ "." ++ (if a % 100 < 10 then "0" else "") ++ toString (a % 100)

/-- `Number.prototype.toFixed(1)` on an exact rational. -/
def toFixed1 (q : ℚ) : String :=
  let n : Int := round (q * 10)
  let sign := if n < 0 then "-" else ""
  let a := n.natAbs
  sign ++ toString (a / 10) ++ "." ++ toString (a % 10)

/-- Association-list model of `Map.set`: overwrite in place when the
key exists, otherwise append (JS `Map` keeps insertion order). -/
def mapSet {α : Type} (m : List (String × α)) (k : String) (v : α) : List (String × α) :=
  if m.any (fun p => p.1 = k) then
    m.map (fun p => if p.1 = k then (k, v) else p)
  else m ++ [(k, v)]

/-- Association-list model of `Map.get`: first match, `none` for a
missing key (JS `undefined`). -/
def mapGet {α : Type} (m : List (String × α)) (k : String) : Option α :=
  match m with
  | [] => none
  | (k2, v) :: rest => if k2 = k then some v else mapGet rest k

/-! ## CSVExporter -/

/-- One CSV cell as the exporter sees it after the `null`/`undefined`
check: `none` is JS `null`/`undefined`, `some s` is any other value,
already in its `String(value)` form. -/
abbrev Cell := Option String

/-- A row object: key/value pairs in JS object key order. -/
abbrev Row := List (String × Cell)

/-- `row[header]` for a row object: `undefined` for a missing key. -/
def lookupKey (row : Row) (h : String) : Cell :=
  match mapGet row h with
  | some c => c
  | none => none

/-- `value.includes(c)` for a single character, as a scan of the
character list. -/
def strContainsChar (s : String) (c : Char) : Bool :=
  s.data.any (fun a => a = c)

/-- `needsQuoting(value)` from csvExporter.js: comma, double quote,
newline, carriage return, or a leading/trailing SPACE character
(`startsWith(' ')`/`endsWith(' ')` with a one-character pattern are
first/last-character tests). -/
def needsQuoting (value : String) : Bool :=
  strContainsChar value ',' ||
  strContainsChar value '"' ||
  strContainsChar value '\n' ||
  strContainsChar value '\r' ||
  value.data.head? == some ' ' ||
  value.data.getLast? == some ' '

/-- The global replace `value.replace(/"/g, '""')`: double every
double-quote character. -/
def escapeQuotes : List Char → List Char
  | [] => []
  | c :: rest => if c = '"' then '"' :: '"' :: escapeQuotes rest else c :: escapeQuotes rest

/-- The per-field encoding step of `convertToCSV`/`formatCSVRow`:
quote-wrap with doubled internal quotes when `needsQuoting`, else the
field text verbatim. -/
def encodeField (value : String) : String :=
  if needsQuoting value then String.mk ('"' :: (escapeQuotes value.data ++ ['"'])) else value

/-- Inverse of quote doubling, as a standards-compliant CSV reader
performs it inside a quoted field. -/
def unescapeQuotes : List Char → List Char
  | [] => []
  | [c] => [c]
  | c :: c2 :: rest =>
    if c = '"' then
      if c2 = '"' then '"' :: unescapeQuotes rest
      else c :: unescapeQuotes (c2 :: rest)
    else c :: unescapeQuotes (c2 :: rest)

/-- Modelled from the spec: a standards-compliant (RFC 4180-style)
split of a single CSV field — a field wrapped in double quotes is
unwrapped and its doubled quotes collapsed, any other field is taken
verbatim. -/
def decodeField (s : String) : String :=
  let l := s.data
  if 2 ≤ l.length ∧ l.head? = some '"' ∧ l.getLast? = some '"' then
    String.mk (unescapeQuotes ((l.drop 1).dropLast))
  else s

/-- Modelled from the spec: the claim's quoting condition verbatim —
comma, double quote, carriage return, newline, or leading/trailing
WHITESPACE (any whitespace character, not only the space). -/
def claimNeedsQuoting (value : String) : Bool :=
  strContainsChar value ',' ||
  strContainsChar value '"' ||
  strContainsChar value '\n' ||
  strContainsChar value '\r' ||
  (match value.data.head? with | some c => c.isWhitespace | none => false) ||
  (match value.data.getLast? with | some c => c.isWhitespace | none => false)

/-- `formatCSVRow(values)`: encode each value (`null` → empty) and
join with commas. -/
def formatCSVRow (values : List Cell) : String :=
  String.intercalate "," (values.map (fun v =>
    match v with
    | none => ""
    | some s => encodeField s))

/-- `convertToCSV(data, headers)`: error on `null` or empty input,
else header line plus one encoded line per row, joined with `\n`.
(The JS fallback `|| this.defaultHeaders` is unreachable because an
array, even empty, is truthy.) -/
def convertToCSV (data : Option (List Row)) (headers : Option (List String)) :
    Except String String :=
  match data with
  | none => Except.error "No data provided for CSV conversion"
  | some rows =>
    if rows.length = 0 then Except.error "No data provided for CSV conversion"
    else
      let csvHeaders := match headers with
        | some h => h
        | none =>
          match rows with
          | r :: _ => r.map Prod.fst
          | [] => []
      let headerLine := formatCSVRow (csvHeaders.map some)
      let dataLines := rows.map (fun row =>
        String.intercalate "," (csvHeaders.map (fun h =>
          match lookupKey row h with
          | none => ""
          | some v => encodeField v)))
      Except.ok (String.intercalate "\n" (headerLine :: dataLines))

/-- Result shape of `generatePreview`. -/
structure Preview where
  headers : List String
  rows : List Row
  totalRows : Nat
  isPreview : Bool
deriving DecidableEq

/-- `generatePreview(data, maxRows)`: fixed empty result for `null` or
empty input, else headers of the first row, the first `maxRows` rows
(`data.slice(0, maxRows)`), the total count, and the truncation flag. -/
def generatePreview (data : Option (List Row)) (maxRows : Nat) : Preview :=
  match data with
  | none => { headers := [], rows := [], totalRows := 0, isPreview := false }
  | some rows =>
    if rows.length = 0 then { headers := [], rows := [], totalRows := 0, isPreview := false }
    else
      { headers := (match rows with | r :: _ => r.map Prod.fst | [] => [])
        rows := rows.take maxRows
        totalRows := rows.length
        isPreview := decide (maxRows < rows.length) }

/-- Stats block of `validateData`. -/
structure ValidationStats where
  totalRows : Nat
  totalColumns : Nat
  emptyValues : Nat
  nullValues : Nat
deriving DecidableEq

/-- Result shape of `validateData`. -/
structure ValidationResult where
  isValid : Bool
  errors : List String
  warnings : List String
  stats : ValidationStats
deriving DecidableEq

/-- `validateData(data)`: reject `null` and empty input outright with
zeroed stats, else scan every row for ragged widths (warnings) and
count null and empty-after-trim cells, adding percentage warnings
above the 10% thresholds. (The `Array.isArray` and row
`typeof !== 'object'` branches are unrepresentable in this typed
model: every `some` value is a list of row objects.) -/
def validateData (data : Option (List Row)) : ValidationResult :=
  match data with
  | none =>
    { isValid := false, errors := ["No data provided"], warnings := []
      stats := ⟨0, 0, 0, 0⟩ }
  | some rows =>
    if rows.length = 0 then
      { isValid := false, errors := ["Data array is empty"], warnings := []
        stats := ⟨0, 0, 0, 0⟩ }
    else
      let totalRows := rows.length
      let headers : List String := match rows with
        | r :: _ => r.map Prod.fst
        | [] => []
      let totalColumns := headers.length
      let scan : List String × Nat × Nat := rows.enum.foldl (fun acc p =>
        let i := p.1
        let row := p.2
        let rl := row.length
        let hl := headers.length
        let warnings := if rl ≠ hl then
            acc.1 ++ [s!"Row {i + 1} has {rl} columns, expected {hl}"]
          else acc.1
        let counts := headers.foldl (fun (c : Nat × Nat) h =>
          match lookupKey row h with
          | none => (c.1, c.2 + 1)
          | some v => if v.trim = "" then (c.1 + 1, c.2) else c) (acc.2.1, acc.2.2)
        (warnings, counts.1, counts.2)) ([], 0, 0)
      let emptyCount := scan.2.1
      let nullCount := scan.2.2
      let totalValues := totalRows * totalColumns
      let emptyPct : ℚ := (emptyCount : ℚ) / (totalValues : ℚ) * 100
      let nullPct : ℚ := (nullCount : ℚ) / (totalValues : ℚ) * 100
      let warnings := scan.1
      let warnings := if 10 < emptyPct then
          warnings ++ [toFixed1 emptyPct ++ "% of values are empty"] else warnings
      let warnings := if 10 < nullPct then
          warnings ++ [toFixed1 nullPct ++ "% of values are null"] else warnings
      { isValid := true, errors := [], warnings := warnings
        stats := ⟨totalRows, totalColumns, emptyCount, nullCount⟩ }

/-! ## GreenButtonParser: element payloads

The DOM layer is abstracted: `getTextContent(parent, tag)` results
appear as `Option String` fields (with namespace-variant lookup
already resolved), and `querySelector` presence tests appear as
`Option` element records. -/

/-- Links of one entry as `extractLinks` collects them: the rel/href
attribute pairs in document order. `links[rel] || []` is `getRel`. -/
abbrev Links := List (String × String)

/-- `links[rel] || []`: the hrefs grouped under one relation type, in
document order. -/
def getRel (links : Links) (rel : String) : List String :=
  (links.filter (fun p => p.1 = rel)).map Prod.snd

/-- `String.prototype.includes(pat)`: substring containment. -/
def strContainsSub (s pat : String) : Bool :=
  (List.range (s.data.length + 1)).any (fun i => pat.data.isPrefixOf (s.data.drop i))

/-- The `<ServiceCategory>` element: its `kind` text. -/
structure ServiceCategoryElem where
  kind : Option String
deriving DecidableEq

/-- The `<UsagePoint>` element as the parser reads it. -/
structure UsagePointElem where
  serviceCategory : Option ServiceCategoryElem
  description : Option String
deriving DecidableEq

/-- The `<ReadingType>` element: the eleven coded-attribute texts. -/
structure ReadingTypeElem where
  accumulationBehaviour : Option String
  commodity : Option String
  currency : Option String
  dataQualifier : Option String
  flowDirection : Option String
  intervalLength : Option String
  kind : Option String
  phase : Option String
  powerOfTenMultiplier : Option String
  timeAttribute : Option String
  uom : Option String
deriving DecidableEq

/-- A `<timePeriod>` / `<interval>` element: duration and start texts. -/
structure TimePeriodElem where
  duration : Option String
  start : Option String
deriving DecidableEq

/-- An `<IntervalReading>` element. -/
structure IntervalReadingElem where
  timePeriod : Option TimePeriodElem
  value : Option String
  cost : Option String
  qualityFlags : Option String
deriving DecidableEq

/-- An `<IntervalBlock>` element. -/
structure IntervalBlockElem where
  interval : Option TimePeriodElem
  intervalReadings : List IntervalReadingElem
deriving DecidableEq

/-- A `<LocalTimeParameters>` element. -/
structure LocalTimeParametersElem where
  dstEndRule : Option String
  dstOffset : Option String
  dstStartRule : Option String
  tzOffset : Option String
deriving DecidableEq

/-- An `<overallConsumptionLastPeriod>` element. -/
structure OverallConsumptionElem where
  powerOfTenMultiplier : Option String
  uom : Option String
  value : Option String
deriving DecidableEq

/-- A `<UsageSummary>` / `<ElectricPowerUsageSummary>` element. -/
structure UsageSummaryElem where
  billingPeriod : Option TimePeriodElem
  billLastPeriod : Option String
  billToDate : Option String
  overallConsumptionLastPeriod : Option OverallConsumptionElem
  currency : Option String
deriving DecidableEq

/-- The `<content>` payload of an entry: which of the six known ESPI
resource elements `querySelector` finds in it. -/
structure EntryContent where
  usagePoint : Option UsagePointElem
  meterReading : Option Unit
  intervalBlock : Option IntervalBlockElem
  readingType : Option ReadingTypeElem
  localTimeParameters : Option LocalTimeParametersElem
  usageSummary : Option UsageSummaryElem
deriving DecidableEq

/-- An Atom `<entry>`: id text, optional content payload, links. -/
structure Entry where
  id : String
  content : Option EntryContent
  links : Links
deriving DecidableEq

/-! ## GreenButtonParser: parsed records -/

/-- Code + human description pair (`{code: parseInt(x), description: TABLE[...] || 'Unknown'}`).
`code = none` models the `NaN` JS stores for non-numeric text. -/
structure CodeDesc where
  code : Option Int
  description : String
deriving DecidableEq

/-- Parsed service category. -/
structure ServiceCategory where
  kind : Option Int
  description : String
deriving DecidableEq

/-- Parsed UsagePoint record. -/
structure UsagePoint where
  id : String
  serviceCategory : Option ServiceCategory
  links : Links
  description : Option String
deriving DecidableEq

/-- Parsed MeterReading record (a pure container). -/
structure MeterReading where
  id : String
  links : Links
deriving DecidableEq

/-- Parsed ReadingType record. -/
structure ReadingType where
  id : String
  accumulationBehaviour : Option Int
  commodity : Option CodeDesc
  currency : Option Int
  dataQualifier : Option Int
  flowDirection : Option Int
  intervalLength : Option Int
  kind : Option Int
  phase : Option Int
  powerOfTenMultiplier : Int
  timeAttribute : Option Int
  uom : Option CodeDesc
deriving DecidableEq

/-- Parsed `{duration, start}` pair. -/
structure TimePeriod where
  duration : Option Int
  start : Option Int
deriving DecidableEq

/-- Parsed IntervalReading record. -/
structure IntervalReading where
  cost : Option Int
  timePeriod : Option TimePeriod
  value : Option Int
  qualityFlags : Option String
deriving DecidableEq

/-- Parsed IntervalBlock record. -/
structure IntervalBlock where
  id : String
  interval : Option TimePeriod
  intervalReadings : List IntervalReading
  links : Links
deriving DecidableEq

/-- Parsed LocalTimeParameters record. -/
structure LocalTimeParameters where
  id : String
  dstEndRule : Option String
  dstOffset : Option Int
  dstStartRule : Option String
  tzOffset : Option Int
deriving DecidableEq

/-- Parsed overallConsumptionLastPeriod part of a UsageSummary. -/
structure OverallConsumption where
  powerOfTenMultiplier : Int
  uom : Option Int
  value : Option Int
deriving DecidableEq

/-- Parsed UsageSummary record. -/
structure UsageSummary where
  id : String
  billingPeriod : Option TimePeriod
  billLastPeriod : Option Int
  billToDate : Option Int
  overallConsumptionLastPeriod : Option OverallConsumption
  currency : Option Int
deriving DecidableEq

/-- The SERVICE_CATEGORIES lookup table. -/
def SERVICE_CATEGORIES : Int → Option String := fun k =>
  if k = 0 then some "Electricity"
  else if k = 1 then some "Gas"
  else if k = 2 then some "Water"
  else if k = 3 then some "Time"
  else if k = 4 then some "Heat"
  else if k = 5 then some "Cooling"
  else none

/-- The COMMODITY_TYPES lookup table. -/
def COMMODITY_TYPES : Int → Option String := fun k =>
  if k = 0 then some "Unknown"
  else if k = 1 then some "Electricity"
  else if k = 2 then some "Gas"
  else if k = 3 then some "Water"
  else if k = 4 then some "Time"
  else if k = 5 then some "Heat"
  else if k = 6 then some "Cooling"
  else if k = 7 then some "Carbon"
  else if k = 8 then some "Carbon dioxide"
  else if k = 9 then some "Nitrogen"
  else if k = 10 then some "Hydrogen"
  else if k = 11 then some "Compressed air"
  else none

/-- The UOM_TYPES lookup table. -/
def UOM_TYPES : Int → Option String := fun k =>
  if k = 5 then some "A"
  else if k = 29 then some "V"
  else if k = 31 then some "J"
  else if k = 38 then some "W"
  else if k = 42 then some "m³"
  else if k = 72 then some "Wh"
  else if k = 73 then some "kWh"
  else if k = 106 then some "Ah"
  else if k = 119 then some "ft³"
  else if k = 122 then some "gal"
  else if k = 132 then some "VAh"
  else if k = 140 then some "W"
  else if k = 159 then some "Wh"
  else if k = 169 then some "VAR"
  else if k = 174 then some "VAh"
  else none

/-! ## GreenButtonParser: per-resource parse functions -/

/-- `x ? {code: parseInt(x), description: TABLE[parseInt(x)] || 'Unknown'} : null`
for a coded attribute with its lookup table. -/
def codeDescOf (table : Int → Option String) (t : Option String) : Option CodeDesc :=
  if jsTruthyStr t then
    let c := jsParseInt (t.getD "")
    some { code := c, description := (c.bind table).getD "Unknown" }
  else none

/-- `parseUsagePoint(element, entryId, links)`. -/
def parseUsagePoint (element : UsagePointElem) (entryId : String) (links : Links) :
    UsagePoint :=
  let serviceCategoryKind : Option String :=
    match element.serviceCategory with
    | some sc => sc.kind
    | none => none
  { id := entryId
    serviceCategory :=
      if jsTruthyStr serviceCategoryKind then
        let c := jsParseInt (serviceCategoryKind.getD "")
        some { kind := c, description := (c.bind SERVICE_CATEGORIES).getD "Unknown" }
      else none
    links := links
    description :=
      match element.description with
      | some s => if s = "" then none else some s
      | none => none }

/-- `parseMeterReading(element, entryId, links)`. -/
def parseMeterReading (entryId : String) (links : Links) : MeterReading :=
  { id := entryId, links := links }

/-- `parseReadingType(element, entryId)`. A non-numeric
`powerOfTenMultiplier` text (JS `NaN`) is modelled as `0`. -/
def parseReadingType (element : ReadingTypeElem) (entryId : String) : ReadingType :=
  { id := entryId
    accumulationBehaviour := parseIntOrNull element.accumulationBehaviour
    commodity := codeDescOf COMMODITY_TYPES element.commodity
    currency := parseIntOrNull element.currency
    dataQualifier := parseIntOrNull element.dataQualifier
    flowDirection := parseIntOrNull element.flowDirection
    intervalLength := parseIntOrNull element.intervalLength
    kind := parseIntOrNull element.kind
    phase := parseIntOrNull element.phase
    powerOfTenMultiplier :=
      if jsTruthyStr element.powerOfTenMultiplier then
        (jsParseInt (element.powerOfTenMultiplier.getD "")).getD 0
      else 0
    timeAttribute := parseIntOrNull element.timeAttribute
    uom := codeDescOf UOM_TYPES element.uom }

/-- The `{duration: parseInt(..)||null, start: parseInt(..)||null}`
pattern shared by `interval`, `timePeriod` and `billingPeriod`. -/
def parseTimePeriod (e : TimePeriodElem) : TimePeriod :=
  { duration := parseIntOrNull e.duration, start := parseIntOrNull e.start }

/-- One array element of `parseIntervalBlock`'s readings loop.
`value`/`cost` use `text ? parseInt(text) : null` (no `|| null`), so a
literal `"0"` text stays a stored `0`; a non-numeric text (`NaN`) is
modelled as `none`. -/
def parseIntervalReading (r : IntervalReadingElem) : IntervalReading :=
  { cost := if jsTruthyStr r.cost then jsParseInt (r.cost.getD "") else none
    timePeriod := r.timePeriod.map parseTimePeriod
    value := if jsTruthyStr r.value then jsParseInt (r.value.getD "") else none
    qualityFlags :=
      match r.qualityFlags with
      | some s => if s = "" then none else some s
      | none => none }

/-- `parseIntervalBlock(element, entryId, links)`. -/
def parseIntervalBlock (element : IntervalBlockElem) (entryId : String) (links : Links) :
    IntervalBlock :=
  { id := entryId
    interval := element.interval.map parseTimePeriod
    intervalReadings := element.intervalReadings.map parseIntervalReading
    links := links }

/-- `parseLocalTimeParameters(element, entryId)`. -/
def parseLocalTimeParameters (element : LocalTimeParametersElem) (entryId : String) :
    LocalTimeParameters :=
  { id := entryId
    dstEndRule :=
      match element.dstEndRule with
      | some s => if s = "" then none else some s
      | none => none
    dstOffset := parseIntOrNull element.dstOffset
    dstStartRule :=
      match element.dstStartRule with
      | some s => if s = "" then none else some s
      | none => none
    tzOffset := parseIntOrNull element.tzOffset }

/-- `parseUsageSummary(element, entryId)`. -/
def parseUsageSummary (element : UsageSummaryElem) (entryId : String) : UsageSummary :=
  { id := entryId
    billingPeriod := element.billingPeriod.map parseTimePeriod
    billLastPeriod := parseIntOrNull element.billLastPeriod
    billToDate := parseIntOrNull element.billToDate
    overallConsumptionLastPeriod := element.overallConsumptionLastPeriod.map (fun oc =>
      { powerOfTenMultiplier := (parseIntOrNull oc.powerOfTenMultiplier).getD 0
        uom := parseIntOrNull oc.uom
        value := parseIntOrNull oc.value })
    currency := parseIntOrNull element.currency }

/-! ## ParsedData, entry classification, relationships -/

/-- The three relationship maps. -/
structure Relationships where
  usagePointToMeterReadings : List (String × List String)
  meterReadingToIntervalBlocks : List (String × List String)
  meterReadingToReadingTypes : List (String × List String)
deriving DecidableEq

/-- The normalized in-memory document `parseXML` builds (feed metadata
omitted: no claim touches it). -/
structure ParsedData where
  usagePoints : List (String × UsagePoint)
  meterReadings : List (String × MeterReading)
  intervalBlocks : List (String × IntervalBlock)
  readingTypes : List (String × ReadingType)
  localTimeParameters : List (String × LocalTimeParameters)
  usageSummaries : List (String × UsageSummary)
  relationships : Relationships
deriving DecidableEq

/-- The empty document `parseXML` initializes before the entry loop. -/
def emptyParsedData : ParsedData :=
  { usagePoints := [], meterReadings := [], intervalBlocks := [], readingTypes := []
    localTimeParameters := [], usageSummaries := []
    relationships := { usagePointToMeterReadings := []
                       meterReadingToIntervalBlocks := []
                       meterReadingToReadingTypes := [] } }

/-- `parseEntry(entry, parsedData)`: skip entries without content,
otherwise probe the six resource elements in the fixed if/else-if
order and store the entry under the first one found. -/
def parseEntry (entry : Entry) (parsedData : ParsedData) : ParsedData :=
  match entry.content with
  | none => parsedData
  | some content =>
    match content.usagePoint with
    | some up =>
      { parsedData with
        usagePoints :=
          mapSet parsedData.usagePoints entry.id (parseUsagePoint up entry.id entry.links) }
    | none =>
    match content.meterReading with
    | some _ =>
      { parsedData with
        meterReadings :=
          mapSet parsedData.meterReadings entry.id (parseMeterReading entry.id entry.links) }
    | none =>
    match content.intervalBlock with
    | some ib =>
      { parsedData with
        intervalBlocks :=
          mapSet parsedData.intervalBlocks entry.id (parseIntervalBlock ib entry.id entry.links) }
    | none =>
    match content.readingType with
    | some rt =>
      { parsedData with
        readingTypes :=
          mapSet parsedData.readingTypes entry.id (parseReadingType rt entry.id) }
    | none =>
    match content.localTimeParameters with
    | some ltp =>
      { parsedData with
        localTimeParameters :=
          mapSet parsedData.localTimeParameters entry.id (parseLocalTimeParameters ltp entry.id) }
    | none =>
    match content.usageSummary with
    | some us =>
      { parsedData with
        usageSummaries :=
          mapSet parsedData.usageSummaries entry.id (parseUsageSummary us entry.id) }
    | none => parsedData

/-- The six ESPI resource kinds, as tags. -/
inductive ResourceKind where
  | usagePoint
  | meterReading
  | intervalBlock
  | readingType
  | localTimeParameters
  | usageSummary
deriving DecidableEq

/-- Modelled from the spec: first-match-wins classification of a
content payload in the fixed priority order UsagePoint, MeterReading,
IntervalBlock, ReadingType, LocalTimeParameters, UsageSummary. -/
def classifyEntry (c : EntryContent) : Option ResourceKind :=
  if c.usagePoint.isSome then some ResourceKind.usagePoint
  else if c.meterReading.isSome then some ResourceKind.meterReading
  else if c.intervalBlock.isSome then some ResourceKind.intervalBlock
  else if c.readingType.isSome then some ResourceKind.readingType
  else if c.localTimeParameters.isSome then some ResourceKind.localTimeParameters
  else if c.usageSummary.isSome then some ResourceKind.usageSummary
  else none

/-- Modelled from the spec: the tagged-union reading of entry
classification — probe the six resource elements simultaneously and
dispatch on the first present one in the fixed priority order; an
entry with no content or no recognized element leaves every
collection unchanged, and any further resource-shaped content in the
same entry is ignored. -/
def parseEntrySpec (e : Entry) (pd : ParsedData) : ParsedData :=
  match e.content with
  | none => pd
  | some c =>
    match c.usagePoint, c.meterReading, c.intervalBlock, c.readingType,
          c.localTimeParameters, c.usageSummary with
    | some up, _, _, _, _, _ =>
      { pd with usagePoints := mapSet pd.usagePoints e.id (parseUsagePoint up e.id e.links) }
    | none, some _, _, _, _, _ =>
      { pd with meterReadings := mapSet pd.meterReadings e.id (parseMeterReading e.id e.links) }
    | none, none, some ib, _, _, _ =>
      { pd with intervalBlocks := mapSet pd.intervalBlocks e.id (parseIntervalBlock ib e.id e.links) }
    | none, none, none, some rt, _, _ =>
      { pd with readingTypes := mapSet pd.readingTypes e.id (parseReadingType rt e.id) }
    | none, none, none, none, some ltp, _ =>
      { pd with localTimeParameters :=
          mapSet pd.localTimeParameters e.id (parseLocalTimeParameters ltp e.id) }
    | none, none, none, none, none, some us =>
      { pd with usageSummaries := mapSet pd.usageSummaries e.id (parseUsageSummary us e.id) }
    | none, none, none, none, none, none => pd

/-- `relatedLinks.filter(link => link.includes(sub)).length > 0`:
does the entity carry at least one "related" link whose URI contains
the given substring? -/
def hasRelatedLinkContaining (links : Links) (sub : String) : Bool :=
  !((getRel links "related").filter (fun link => strContainsSub link sub)).isEmpty

/-- `buildRelationships(parsedData)`: presence-only matching — an
entity with at least one qualifying "related" link is associated with
every id of the target collection (the JS inner loops push every key
of the target `Map` in order). -/
def buildRelationships (pd : ParsedData) : ParsedData :=
  let upToMr := pd.usagePoints.foldl (fun acc p =>
    if hasRelatedLinkContaining p.2.links "MeterReading" then
      mapSet acc p.1 (pd.meterReadings.map Prod.fst)
    else acc) pd.relationships.usagePointToMeterReadings
  let mrToIb := pd.meterReadings.foldl (fun acc p =>
    if hasRelatedLinkContaining p.2.links "IntervalBlock" then
      mapSet acc p.1 (pd.intervalBlocks.map Prod.fst)
    else acc) pd.relationships.meterReadingToIntervalBlocks
  let mrToRt := pd.meterReadings.foldl (fun acc p =>
    if hasRelatedLinkContaining p.2.links "ReadingType" then
      pd.readingTypes.foldl (fun acc2 q =>
        let acc3 := if (mapGet acc2 p.1).isNone then mapSet acc2 p.1 [] else acc2
        mapSet acc3 p.1 (((mapGet acc3 p.1).getD []) ++ [q.1])) acc
    else acc) pd.relationships.meterReadingToReadingTypes
  { pd with relationships :=
      { usagePointToMeterReadings := upToMr
        meterReadingToIntervalBlocks := mrToIb
        meterReadingToReadingTypes := mrToRt } }

/-! ## Timestamp formatting -/

/-- Left-pad to two digits. -/
def pad2 (n : Nat) : String := (if n < 10 then "0" else "") ++ toString n

/-- Left-pad to three digits. -/
def pad3 (n : Nat) : String :=
  (if n < 10 then "00" else if n < 100 then "0" else "") ++ toString n

/-- Left-pad to four digits. -/
def pad4 (n : Nat) : String :=
  (if n < 10 then "000" else if n < 100 then "00" else if n < 1000 then "0" else "") ++ toString n

/-- Proleptic-Gregorian civil date from days since the Unix epoch
(Hinnant's `civil_from_days`), as `Date` computes it internally:
year, month (1–12), day (1–31). -/
def civilFromDays (z0 : Int) : Int × Nat × Nat :=
  let z := z0 + 719468
  let era : Int := Int.ediv z 146097
  let doe : Int := z - era * 146097
  let yoe : Int := Int.ediv (doe - Int.ediv doe 1460 + Int.ediv doe 36524 - Int.ediv doe 146096) 365
  let y : Int := yoe + era * 400
  let doy : Int := doe - (365 * yoe + Int.ediv yoe 4 - Int.ediv yoe 100)
  let mp : Int := Int.ediv (5 * doy + 2) 153
  let d : Int := doy - Int.ediv (153 * mp + 2) 5 + 1
  let m : Int := mp + (if mp < 10 then 3 else -9)
  (y + (if m ≤ 2 then 1 else 0), m.toNat, d.toNat)

/-- `new Date(ms).toISOString()` for a millisecond timestamp:
`YYYY-MM-DDTHH:mm:ss.sssZ` in UTC. (The expanded ±YYYYYY form for
years outside 0–9999 is not modelled; no claim reaches it.) -/
def toISOString (ms : Int) : String :=
  let msec := (Int.emod ms 1000).toNat
  let total := Int.ediv ms 1000
  let days := Int.ediv total 86400
  let secs := (Int.emod total 86400).toNat
  let c := civilFromDays days
  let yearStr := if c.1 < 0 then "-" ++ pad4 (-c.1).toNat else pad4 c.1.toNat
  yearStr ++ "-" ++ pad2 c.2.1 ++ "-" ++ pad2 c.2.2 ++ "T" ++
    pad2 (secs / 3600) ++ ":" ++ pad2 (secs % 3600 / 60) ++ ":" ++ pad2 (secs % 60) ++
    "." ++ pad3 msec ++ "Z"

/-- `formatTimestamp(timestamp)`: `null` for a falsy input (JS `null`
or `0`), else the ISO string of `timestamp * 1000` milliseconds. -/
def formatTimestamp (timestamp : Option Int) : Option String :=
  if jsTruthyInt timestamp then some (toISOString (timestamp.getD 0 * 1000)) else none

/-! ## Flattening -/

/-- `Math.pow(10, m)` with an exact rational result. -/
def pow10 (m : Int) : ℚ := (10 : ℚ) ^ m

/-- One denormalized output row (the object literal pushed by
`toFlatData`). `calculated_value` is kept as an exact rational. -/
structure FlatRow where
  usage_point_id : String
  meter_reading_id : String
  interval_block_id : String
  reading_type_id : Option String
  service_category : Option String
  commodity : Option String
  uom : Option String
  power_multiplier : Option Int
  start_time : Option String
  duration : Option Int
  end_time : Option String
  value : Option Int
  cost : Option Int
  quality_flags : Option String
  interval_length : Option Int
  calculated_value : Option ℚ
  calculated_cost : Option String
deriving DecidableEq

/-- The body of `toFlatData`'s innermost loop: derive the calculated
fields for one interval reading and assemble its FlatRow. -/
def mkFlatRow (upId mrId ibId : String) (relatedReadingTypes : List String)
    (usagePoint : UsagePoint) (readingType : Option ReadingType)
    (reading : IntervalReading) : FlatRow :=
  let powerMultiplier : Int :=
    match readingType with
    | some rt => rt.powerOfTenMultiplier
    | none => 0
  let calculatedValue : Option ℚ :=
    if jsTruthyInt reading.value then
      some ((reading.value.getD 0 : ℚ) * pow10 powerMultiplier)
    else none
  let calculatedCostWithMultiplier : Option ℚ :=
    if jsTruthyInt reading.cost then
      some ((reading.cost.getD 0 : ℚ) * pow10 powerMultiplier)
    else none
  let calculatedCost : Option String :=
    match calculatedCostWithMultiplier with
    | some q => if q ≠ 0 then some (toFixed2 (q / 100)) else none
    | none => none
  { usage_point_id := upId
    meter_reading_id := mrId
    interval_block_id := ibId
    reading_type_id :=
      match relatedReadingTypes with
      | [] => none
      | rtId :: _ => if rtId = "" then none else some rtId
    service_category := usagePoint.serviceCategory.map (fun sc => sc.description)
    commodity := (readingType.bind (fun rt => rt.commodity)).map (fun c => c.description)
    uom := (readingType.bind (fun rt => rt.uom)).map (fun u => u.description)
    power_multiplier := readingType.map (fun rt => rt.powerOfTenMultiplier)
    start_time := formatTimestamp (reading.timePeriod.bind (fun tp => tp.start))
    duration := reading.timePeriod.bind (fun tp => tp.duration)
    end_time :=
      if reading.timePeriod.isSome &&
         jsTruthyInt (reading.timePeriod.bind (fun tp => tp.start)) &&
         jsTruthyInt (reading.timePeriod.bind (fun tp => tp.duration)) then
        formatTimestamp (some ((reading.timePeriod.bind (fun tp => tp.start)).getD 0 +
                               (reading.timePeriod.bind (fun tp => tp.duration)).getD 0))
      else none
    value := reading.value
    cost := reading.cost
    quality_flags := reading.qualityFlags
    interval_length := readingType.bind (fun rt => rt.intervalLength)
    calculated_value := calculatedValue
    calculated_cost := calculatedCost }

/-- `toFlatData(parsedData)`: nested loops pushing one FlatRow per
interval reading onto the accumulator, exactly as in the source. -/
def toFlatData (pd : ParsedData) : List FlatRow :=
  pd.usagePoints.foldl (fun flatData up =>
    ((mapGet pd.relationships.usagePointToMeterReadings up.1).getD []).foldl (fun flatData mrId =>
      match mapGet pd.meterReadings mrId with
      | none => flatData
      | some _ =>
        let relatedReadingTypes := (mapGet pd.relationships.meterReadingToReadingTypes mrId).getD []
        let readingType : Option ReadingType :=
          match relatedReadingTypes with
          | [] => none
          | rtId :: _ => mapGet pd.readingTypes rtId
        ((mapGet pd.relationships.meterReadingToIntervalBlocks mrId).getD []).foldl (fun flatData ibId =>
          match mapGet pd.intervalBlocks ibId with
          | none => flatData
          | some intervalBlock =>
            intervalBlock.intervalReadings.foldl (fun flatData reading =>
              flatData ++ [mkFlatRow up.1 mrId ibId relatedReadingTypes up.2 readingType reading])
              flatData) flatData) flatData) []

/-- Modelled from the spec: the flatten traversal as a nested
comprehension — for every UsagePoint, for every related MeterReading,
with the first related ReadingType only, for every related
IntervalBlock, for every IntervalReading in that block, one FlatRow,
in exactly that nesting order. -/
def flattenSpec (pd : ParsedData) : List FlatRow :=
  pd.usagePoints.flatMap (fun up =>
    ((mapGet pd.relationships.usagePointToMeterReadings up.1).getD []).flatMap (fun mrId =>
      match mapGet pd.meterReadings mrId with
      | none => []
      | some _ =>
        let relatedReadingTypes := (mapGet pd.relationships.meterReadingToReadingTypes mrId).getD []
        let readingType : Option ReadingType :=
          match relatedReadingTypes with
          | [] => none
          | rtId :: _ => mapGet pd.readingTypes rtId
        ((mapGet pd.relationships.meterReadingToIntervalBlocks mrId).getD []).flatMap (fun ibId =>
          match mapGet pd.intervalBlocks ibId with
          | none => []
          | some intervalBlock =>
            intervalBlock.intervalReadings.map (fun reading =>
              mkFlatRow up.1 mrId ibId relatedReadingTypes up.2 readingType reading))))

/-! ## The full pipeline on a list of entries, and concrete feeds

`parseFeed` is the core of `parseXML` once the DOM is abstracted: fold
`parseEntry` over the entries in document order, then run
`buildRelationships`. The concrete feeds below exercise the corner
cases of the specification claims. -/

/-- The entry loop of `parseXML` followed by `buildRelationships`. -/
def parseFeed (entries : List Entry) : ParsedData :=
  buildRelationships (entries.foldl (fun pd e => parseEntry e pd) emptyParsedData)

/-- A content payload with no recognized resource element. -/
def emptyContent : EntryContent := ⟨none, none, none, none, none, none⟩

/-- A ReadingType element with every attribute text absent. -/
def emptyReadingTypeElem : ReadingTypeElem :=
  ⟨none, none, none, none, none, none, none, none, none, none, none⟩

/-- A usage point entry carrying a `related` MeterReading link. -/
def upEntry : Entry :=
  { id := "up1"
    content := some { emptyContent with usagePoint := some ⟨some ⟨some "0"⟩, none⟩ }
    links := [("self", "/espi/UsagePoint/1"),
              ("related", "/espi/UsagePoint/1/MeterReading")] }

/-- A meter reading entry with `related` IntervalBlock and ReadingType links. -/
def mrEntry : Entry :=
  { id := "mr1"
    content := some { emptyContent with meterReading := some () }
    links := [("related", "/espi/MeterReading/1/IntervalBlock"),
              ("related", "/espi/MeterReading/1/ReadingType")] }

/-- A meter reading entry whose only `related` link is to IntervalBlock. -/
def mrEntryNoRt : Entry :=
  { id := "mr1"
    content := some { emptyContent with meterReading := some () }
    links := [("related", "/espi/MeterReading/1/IntervalBlock")] }

/-- A ReadingType entry with the given multiplier text. -/
def rtEntry (mult : String) : Entry :=
  { id := "rt1"
    content := some
      { emptyContent with
        readingType := some
          { emptyReadingTypeElem with
            commodity := some "1"
            intervalLength := some "900"
            powerOfTenMultiplier := some mult
            uom := some "73" } }
    links := [] }

/-- An IntervalBlock entry with a single reading built from the given
value/cost/start/duration texts. -/
def ibEntry (v c st du : Option String) : Entry :=
  { id := "ib1"
    content := some
      { emptyContent with
        intervalBlock := some
          ⟨some ⟨some "900", some "1609459200"⟩, [⟨some ⟨du, st⟩, v, c, none⟩]⟩ }
    links := [] }

/-- Feed whose single interval reading has raw value text "0"
(multiplier 0): the C1 zero-value corner. -/
def feedValueZero : List Entry :=
  [upEntry, mrEntry, rtEntry "0",
   ibEntry (some "0") none (some "1609459200") (some "900")]

/-- Feed whose single interval reading has value 320 and multiplier 3. -/
def feedValue320 : List Entry :=
  [upEntry, mrEntry, rtEntry "3",
   ibEntry (some "320") none (some "1609459200") (some "900")]

/-- Feed whose single interval reading has raw cost text "0"
(multiplier 0): the C3 zero-cost corner. -/
def feedCostZero : List Entry :=
  [upEntry, mrEntry, rtEntry "0",
   ibEntry (some "25") (some "0") (some "1609459200") (some "900")]

/-- Feed whose single interval reading has cost 256347 and multiplier 0:
the worked example of the spec. -/
def feedCost256347 : List Entry :=
  [upEntry, mrEntry, rtEntry "0",
   ibEntry (some "25") (some "256347") (some "1609459200") (some "900")]

/-- Feed whose single interval reading has start -900 and duration 900,
so that start + duration = 0: the C4 zero-sum corner. -/
def feedZeroSum : List Entry :=
  [upEntry, mrEntry, rtEntry "0",
   ibEntry (some "25") none (some "-900") (some "900")]

/-- Feed whose MeterReading has no related ReadingType (and the feed
carries none): the C9 scenario, with value 0 and cost 500. -/
def feedNoReadingType : List Entry :=
  [upEntry, mrEntryNoRt,
   ibEntry (some "0") (some "500") (some "1609459200") (some "900")]

/-- Hand-built parsed document for exercising `buildRelationships`
directly: two usage points (one with a MeterReading link), two meter
readings (one with a ReadingType link), one reading type, no interval
blocks. -/
def pdRel : ParsedData :=
  { usagePoints :=
      [("up1", ⟨"up1", none, [("related", "/x/MeterReading")], none⟩),
       ("up2", ⟨"up2", none, [("self", "/x/UsagePoint/2")], none⟩)]
    meterReadings :=
      [("mr1", ⟨"mr1", [("related", "/x/ReadingType")]⟩),
       ("mr2", ⟨"mr2", []⟩)]
    intervalBlocks := []
    readingTypes :=
      [("rt1", ⟨"rt1", none, none, none, none, none, none, none, none, 0, none, none⟩)]
    localTimeParameters := []
    usageSummaries := []
    relationships := ⟨[], [], []⟩ }

/-- A default FlatRow used only as the `Option.getD` fallback when
naming the head row of a concrete flattening. -/
def defaultRow : FlatRow :=
  mkFlatRow "" "" "" [] ⟨"", none, [], none⟩ none ⟨none, none, none, none⟩

/-- The single row flattened from `feedValue320`. -/
def rowValue320 : FlatRow :=
  ((toFlatData (parseFeed feedValue320)).head?).getD defaultRow

/-- The single row flattened from `feedCost256347`. -/
def rowCost256347 : FlatRow :=
  ((toFlatData (parseFeed feedCost256347)).head?).getD defaultRow

/-- The parse invariant on interval readings: `parseIntervalBlock`
stores `parseInt(text) || null` for timePeriod start and duration, so
a stored value is never `0` (a literal `"0"` text collapses to null). -/
def readingParsed (r : IntervalReading) : Prop :=
  ∀ tp, r.timePeriod = some tp → tp.start ≠ some 0 ∧ tp.duration ≠ some 0

/-! ## Lemmas about the association-list map model -/

-- Batteries marks the `Rat` arithmetic operations `@[irreducible]`,
-- which blocks `decide` on concrete rows whose derived fields carry
-- exact rationals; restore the default transparency for this file.
attribute [local semireducible] Rat.mul Rat.add Rat.sub Rat.inv

theorem mapGet_eq_none_iff {α : Type} (m : List (String × α)) (k : String) :
    mapGet m k = none ↔ k ∉ m.map Prod.fst := by
  induction m with
  | nil => simp [mapGet]
  | cons p rest ih =>
    obtain ⟨k2, v⟩ := p
    by_cases h : k2 = k
    · subst h
      simp [mapGet]
    · simp [mapGet, h, ih, Ne.symm h]

theorem mapGet_append_of_none {α : Type} {m : List (String × α)} {k : String}
    (l : List (String × α)) (h : mapGet m k = none) :
    mapGet (m ++ l) k = mapGet l k := by
  induction m with
  | nil => simp
  | cons p rest ih =>
    obtain ⟨k2, v⟩ := p
    by_cases hk : k2 = k
    · simp [mapGet, hk] at h
    · simp only [mapGet, hk, if_neg hk, List.cons_append] at h ⊢
      exact ih h

theorem mapGet_append_of_some {α : Type} {m : List (String × α)} {k : String} {v : α}
    (l : List (String × α)) (h : mapGet m k = some v) :
    mapGet (m ++ l) k = some v := by
  induction m with
  | nil => simp [mapGet] at h
  | cons p rest ih =>
    obtain ⟨k2, w⟩ := p
    by_cases hk : k2 = k
    · simp only [mapGet, if_pos hk, List.cons_append] at h ⊢
      exact h
    · simp only [mapGet, if_neg hk, List.cons_append] at h ⊢
      exact ih h

theorem mapGet_map_overwrite_self {α : Type} {m : List (String × α)} {k : String} (v : α)
    (h : m.any (fun p => p.1 = k) = true) :
    mapGet (m.map (fun p => if p.1 = k then (k, v) else p)) k = some v := by
  induction m with
  | nil => simp at h
  | cons p rest ih =>
    obtain ⟨k2, w⟩ := p
    rw [List.map_cons]
    by_cases hk : k2 = k
    · have : (if (k2, w).1 = k then (k, v) else (k2, w)) = (k, v) := if_pos hk
      rw [this]
      simp [mapGet]
    · have : (if (k2, w).1 = k then (k, v) else (k2, w)) = (k2, w) := if_neg hk
      rw [this]
      show (if k2 = k then some w else mapGet _ k) = some v
      rw [if_neg hk]
      simp only [List.any_cons, Bool.or_eq_true, decide_eq_true_eq] at h
      rcases h with h | h
      · exact absurd h hk
      · exact ih h

theorem mapGet_map_overwrite_ne {α : Type} {m : List (String × α)} {k k2 : String} (v : α)
    (h : k2 ≠ k) :
    mapGet (m.map (fun p => if p.1 = k then (k, v) else p)) k2 = mapGet m k2 := by
  induction m with
  | nil => rfl
  | cons p rest ih =>
    obtain ⟨k1, w⟩ := p
    rw [List.map_cons]
    by_cases hk : k1 = k
    · have : (if (k1, w).1 = k then (k, v) else (k1, w)) = (k, v) := if_pos hk
      rw [this]
      show (if k = k2 then some v else _) = (if k1 = k2 then some w else _)
      rw [if_neg (Ne.symm h), if_neg (fun hh : k1 = k2 => h (hk ▸ hh ▸ rfl))]
      exact ih
    · have : (if (k1, w).1 = k then (k, v) else (k1, w)) = (k1, w) := if_neg hk
      rw [this]
      show (if k1 = k2 then some w else _) = (if k1 = k2 then some w else _)
      by_cases hk2 : k1 = k2
      · rw [if_pos hk2, if_pos hk2]
      · rw [if_neg hk2, if_neg hk2]
        exact ih

theorem mapGet_mapSet_self {α : Type} (m : List (String × α)) (k : String) (v : α) :
    mapGet (mapSet m k v) k = some v := by
  unfold mapSet
  by_cases h : m.any (fun p => p.1 = k) = true
  · rw [if_pos h]
    exact mapGet_map_overwrite_self v h
  · rw [if_neg h]
    have hnone : mapGet m k = none := by
      rw [mapGet_eq_none_iff]
      intro hmem
      apply h
      rw [List.any_eq_true]
      rcases List.mem_map.1 hmem with ⟨p, hp, hpk⟩
      exact ⟨p, hp, by simp [hpk]⟩
    rw [mapGet_append_of_none _ hnone]
    simp [mapGet]

theorem mapGet_mapSet_ne {α : Type} (m : List (String × α)) (k k2 : String) (v : α)
    (h : k2 ≠ k) :
    mapGet (mapSet m k v) k2 = mapGet m k2 := by
  unfold mapSet
  by_cases hany : m.any (fun p => p.1 = k) = true
  · rw [if_pos hany]
    exact mapGet_map_overwrite_ne v h
  · rw [if_neg hany]
    cases hm : mapGet m k2 with
    | some w => exact mapGet_append_of_some _ hm
    | none =>
      rw [mapGet_append_of_none _ hm]
      simp [mapGet, Ne.symm h]

/-! ## Lemmas about the relationship-building folds -/

theorem relFold_mapGet_notMem {α : Type} (cond : α → Bool) (tgt : List String) :
    ∀ (L : List (String × α)) (init : List (String × List String)) (k : String),
    k ∉ L.map Prod.fst →
    mapGet (L.foldl (fun acc p => if cond p.2 then mapSet acc p.1 tgt else acc) init) k
      = mapGet init k := by
  intro L
  induction L with
  | nil => intro init k _; rfl
  | cons p rest ih =>
    intro init k hk
    rw [List.map_cons] at hk
    have hk1 : k ≠ p.1 := fun hh => hk (hh ▸ List.mem_cons_self p.1 (rest.map Prod.fst))
    have hk2 : k ∉ rest.map Prod.fst := fun hh => hk (List.mem_cons_of_mem _ hh)
    rw [List.foldl_cons, ih _ k hk2]
    by_cases hc : cond p.2 = true
    · rw [if_pos hc, mapGet_mapSet_ne _ _ _ _ hk1]
    · rw [if_neg hc]

theorem relFold_mapGet {α : Type} (cond : α → Bool) (tgt : List String) :
    ∀ (L : List (String × α)) (init : List (String × List String)) (k : String) (v : α),
    (L.map Prod.fst).Nodup → (k, v) ∈ L →
    mapGet (L.foldl (fun acc p => if cond p.2 then mapSet acc p.1 tgt else acc) init) k
      = if cond v then some tgt else mapGet init k := by
  intro L
  induction L with
  | nil => intro init k v _ hm; simp at hm
  | cons p rest ih =>
    intro init k v hnd hm
    rw [List.map_cons, List.nodup_cons] at hnd
    rw [List.foldl_cons]
    rcases List.mem_cons.1 hm with heq | hmem
    · have hp1 : p.1 = k := by rw [← heq]
      have hp2 : p.2 = v := by rw [← heq]
      have hknotin : k ∉ rest.map Prod.fst := hp1 ▸ hnd.1
      rw [relFold_mapGet_notMem cond tgt rest _ k hknotin]
      by_cases hc : cond p.2 = true
      · rw [if_pos hc, hp1, mapGet_mapSet_self, if_pos (hp2 ▸ hc)]
      · rw [if_neg hc, if_neg (by rw [← hp2]; exact hc)]
    · have hkne : k ≠ p.1 := by
        intro hh
        exact hnd.1 (hh ▸ (List.mem_map.2 ⟨(k, v), hmem, rfl⟩))
      rw [ih _ k v hnd.2 hmem]
      by_cases hc : cond p.2 = true
      · rw [if_pos hc, mapGet_mapSet_ne _ _ _ _ hkne]
      · rw [if_neg hc]

theorem rtInner_mapGet_ne {β : Type} (k k2 : String) (h : k2 ≠ k) :
    ∀ (R : List (String × β)) (acc : List (String × List String)),
    mapGet (R.foldl (fun acc2 q =>
        let acc3 := if (mapGet acc2 k).isNone then mapSet acc2 k ([] : List String) else acc2
        mapSet acc3 k (((mapGet acc3 k).getD []) ++ [q.1])) acc) k2
      = mapGet acc k2 := by
  intro R
  induction R with
  | nil => intro acc; rfl
  | cons q rest ih =>
    intro acc
    rw [List.foldl_cons, ih]
    show mapGet (mapSet _ k _) k2 = _
    rw [mapGet_mapSet_ne _ _ _ _ h]
    by_cases hc : (mapGet acc k).isNone = true
    · rw [if_pos hc, mapGet_mapSet_ne _ _ _ _ h]
    · rw [if_neg hc]

theorem rtInner_mapGet {β : Type} (k : String) :
    ∀ (R : List (String × β)) (acc : List (String × List String)),
    mapGet (R.foldl (fun acc2 q =>
        let acc3 := if (mapGet acc2 k).isNone then mapSet acc2 k ([] : List String) else acc2
        mapSet acc3 k (((mapGet acc3 k).getD []) ++ [q.1])) acc) k
      = if R.isEmpty then mapGet acc k
        else some (((mapGet acc k).getD []) ++ R.map Prod.fst) := by
  intro R
  induction R with
  | nil => intro acc; rfl
  | cons q rest ih =>
    intro acc
    rw [List.foldl_cons, ih]
    have hstep : mapGet
        (mapSet (if (mapGet acc k).isNone then mapSet acc k ([] : List String) else acc) k
          (((mapGet (if (mapGet acc k).isNone then mapSet acc k ([] : List String) else acc) k).getD [])
            ++ [q.1])) k
        = some (((mapGet acc k).getD []) ++ [q.1]) := by
      cases hm : mapGet acc k with
      | none =>
        show mapGet (mapSet (mapSet acc k []) k
          ((mapGet (mapSet acc k []) k).getD [] ++ [q.1])) k = some ((none : Option (List String)).getD [] ++ [q.1])
        rw [mapGet_mapSet_self, mapGet_mapSet_self]
        simp
      | some l =>
        show mapGet (mapSet acc k ((mapGet acc k).getD [] ++ [q.1])) k = some ((some l).getD [] ++ [q.1])
        rw [hm, mapGet_mapSet_self]
    show (if rest.isEmpty then
            mapGet (mapSet (if (mapGet acc k).isNone then _ else acc) k _) k
          else some ((mapGet (mapSet (if (mapGet acc k).isNone then _ else acc) k _) k).getD []
            ++ rest.map Prod.fst)) = _
    rw [hstep]
    cases rest with
    | nil => simp
    | cons r2 rr => simp [List.isEmpty]

theorem rtFold_mapGet_notMem (R : List (String × ReadingType)) :
    ∀ (L : List (String × MeterReading)) (init : List (String × List String)) (k : String),
    k ∉ L.map Prod.fst →
    mapGet (L.foldl (fun acc p =>
        if hasRelatedLinkContaining p.2.links "ReadingType" then
          R.foldl (fun acc2 q =>
            let acc3 := if (mapGet acc2 p.1).isNone then mapSet acc2 p.1 ([] : List String) else acc2
            mapSet acc3 p.1 (((mapGet acc3 p.1).getD []) ++ [q.1])) acc
        else acc) init) k
      = mapGet init k := by
  intro L
  induction L with
  | nil => intro init k _; rfl
  | cons p rest ih =>
    intro init k hk
    rw [List.map_cons] at hk
    have hk1 : k ≠ p.1 := fun hh => hk (hh ▸ List.mem_cons_self p.1 (rest.map Prod.fst))
    have hk2 : k ∉ rest.map Prod.fst := fun hh => hk (List.mem_cons_of_mem _ hh)
    rw [List.foldl_cons, ih _ k hk2]
    by_cases hc : hasRelatedLinkContaining p.2.links "ReadingType" = true
    · rw [if_pos hc, rtInner_mapGet_ne p.1 k hk1]
    · rw [if_neg hc]

theorem rtFold_mapGet (R : List (String × ReadingType)) :
    ∀ (L : List (String × MeterReading)) (init : List (String × List String))
      (k : String) (v : MeterReading),
    (L.map Prod.fst).Nodup → (k, v) ∈ L →
    mapGet (L.foldl (fun acc p =>
        if hasRelatedLinkContaining p.2.links "ReadingType" then
          R.foldl (fun acc2 q =>
            let acc3 := if (mapGet acc2 p.1).isNone then mapSet acc2 p.1 ([] : List String) else acc2
            mapSet acc3 p.1 (((mapGet acc3 p.1).getD []) ++ [q.1])) acc
        else acc) init) k
      = if hasRelatedLinkContaining v.links "ReadingType" then
          (if R.isEmpty then mapGet init k
           else some (((mapGet init k).getD []) ++ R.map Prod.fst))
        else mapGet init k := by
  intro L
  induction L with
  | nil => intro init k v _ hm; simp at hm
  | cons p rest ih =>
    intro init k v hnd hm
    rw [List.map_cons, List.nodup_cons] at hnd
    rw [List.foldl_cons]
    rcases List.mem_cons.1 hm with heq | hmem
    · have hp1 : p.1 = k := by rw [← heq]
      have hp2 : p.2 = v := by rw [← heq]
      have hknotin : k ∉ rest.map Prod.fst := hp1 ▸ hnd.1
      rw [rtFold_mapGet_notMem R rest _ k hknotin]
      by_cases hc : hasRelatedLinkContaining p.2.links "ReadingType" = true
      · have hcv : hasRelatedLinkContaining v.links "ReadingType" = true := by
          rw [← hp2]; exact hc
        rw [if_pos hc, hp1, rtInner_mapGet, if_pos hcv]
      · have hcv : ¬ hasRelatedLinkContaining v.links "ReadingType" = true := by
          rw [← hp2]; exact hc
        rw [if_neg hc, if_neg hcv]
    · have hkne : k ≠ p.1 := by
        intro hh
        exact hnd.1 (hh ▸ (List.mem_map.2 ⟨(k, v), hmem, rfl⟩))
      rw [ih _ k v hnd.2 hmem]
      by_cases hc : hasRelatedLinkContaining p.2.links "ReadingType" = true
      · rw [if_pos hc, rtInner_mapGet_ne p.1 k hkne]
      · rw [if_neg hc]

/-- **C2.** In `buildRelationships`, a UsagePoint with at least one
"related" link whose URI contains "MeterReading" is mapped to every
MeterReading id present in the feed; a UsagePoint without such a link
gets no entry at all (absent key). The same presence-implies-all
policy holds for MeterReading→IntervalBlock and
MeterReading→ReadingType. (For the ReadingType edge the associating
entry is materialized inside the per-target loop, so when the feed
contains zero ReadingTypes a link-holding MeterReading also has no
entry — in that case "associated with every ReadingType id" is
vacuous; the theorem states that corner exactly.) -/
theorem C2_buildRelationships_presence_all (pd : ParsedData)
    (hrel : pd.relationships = ⟨[], [], []⟩)
    (hU : (pd.usagePoints.map Prod.fst).Nodup)
    (hM : (pd.meterReadings.map Prod.fst).Nodup) :
    (∀ upId up, (upId, up) ∈ pd.usagePoints →
      (hasRelatedLinkContaining up.links "MeterReading" = true →
        mapGet (buildRelationships pd).relationships.usagePointToMeterReadings upId
          = some (pd.meterReadings.map Prod.fst)) ∧
      (hasRelatedLinkContaining up.links "MeterReading" = false →
        mapGet (buildRelationships pd).relationships.usagePointToMeterReadings upId = none)) ∧
    (∀ mrId mr, (mrId, mr) ∈ pd.meterReadings →
      (hasRelatedLinkContaining mr.links "IntervalBlock" = true →
        mapGet (buildRelationships pd).relationships.meterReadingToIntervalBlocks mrId
          = some (pd.intervalBlocks.map Prod.fst)) ∧
      (hasRelatedLinkContaining mr.links "IntervalBlock" = false →
        mapGet (buildRelationships pd).relationships.meterReadingToIntervalBlocks mrId = none)) ∧
    (∀ mrId mr, (mrId, mr) ∈ pd.meterReadings →
      (hasRelatedLinkContaining mr.links "ReadingType" = true → pd.readingTypes ≠ [] →
        mapGet (buildRelationships pd).relationships.meterReadingToReadingTypes mrId
          = some (pd.readingTypes.map Prod.fst)) ∧
      (hasRelatedLinkContaining mr.links "ReadingType" = true → pd.readingTypes = [] →
        mapGet (buildRelationships pd).relationships.meterReadingToReadingTypes mrId = none) ∧
      (hasRelatedLinkContaining mr.links "ReadingType" = false →
        mapGet (buildRelationships pd).relationships.meterReadingToReadingTypes mrId = none)) := by
  have hinit1 : pd.relationships.usagePointToMeterReadings = [] := by rw [hrel]
  have hinit2 : pd.relationships.meterReadingToIntervalBlocks = [] := by rw [hrel]
  have hinit3 : pd.relationships.meterReadingToReadingTypes = [] := by rw [hrel]
  refine ⟨?_, ?_, ?_⟩
  · intro upId up hmem
    have h := relFold_mapGet (fun u : UsagePoint => hasRelatedLinkContaining u.links "MeterReading")
      (pd.meterReadings.map Prod.fst) pd.usagePoints
      pd.relationships.usagePointToMeterReadings upId up hU hmem
    beta_reduce at h
    constructor
    · intro hc
      rw [if_pos hc] at h
      exact h
    · intro hc
      have hne : ¬ hasRelatedLinkContaining up.links "MeterReading" = true := by
        rw [hc]; exact Bool.false_ne_true
      rw [if_neg hne] at h
      exact h.trans (by rw [hinit1]; rfl)
  · intro mrId mr hmem
    have h := relFold_mapGet (fun m : MeterReading => hasRelatedLinkContaining m.links "IntervalBlock")
      (pd.intervalBlocks.map Prod.fst) pd.meterReadings
      pd.relationships.meterReadingToIntervalBlocks mrId mr hM hmem
    beta_reduce at h
    constructor
    · intro hc
      rw [if_pos hc] at h
      exact h
    · intro hc
      have hne : ¬ hasRelatedLinkContaining mr.links "IntervalBlock" = true := by
        rw [hc]; exact Bool.false_ne_true
      rw [if_neg hne] at h
      exact h.trans (by rw [hinit2]; rfl)
  · intro mrId mr hmem
    have h := rtFold_mapGet pd.readingTypes pd.meterReadings
      pd.relationships.meterReadingToReadingTypes mrId mr hM hmem
    refine ⟨?_, ?_, ?_⟩
    · intro hc hne
      rw [if_pos hc, if_neg (by simpa [List.isEmpty_iff] using hne)] at h
      exact h.trans (by rw [hinit3]; simp [mapGet])
    · intro hc hemp
      rw [if_pos hc, if_pos (by simp [hemp])] at h
      exact h.trans (by rw [hinit3]; rfl)
    · intro hc
      have hneg : ¬ hasRelatedLinkContaining mr.links "ReadingType" = true := by
        rw [hc]; exact Bool.false_ne_true
      rw [if_neg hneg] at h
      exact h.trans (by rw [hinit3]; rfl)

/-- Witness for C2 at a concrete document: `pdRel`'s first usage point
carries a MeterReading link and is mapped to both meter reading ids. -/
theorem C2_witness :
    mapGet (buildRelationships pdRel).relationships.usagePointToMeterReadings "up1"
      = some ["mr1", "mr2"] :=
  ((C2_buildRelationships_presence_all pdRel rfl (by decide) (by decide)).1 "up1"
    ⟨"up1", none, [("related", "/x/MeterReading")], none⟩ (by decide)).1 (by decide)

/-! ## The flatten traversal: accumulator form equals comprehension form -/

theorem foldl_append_eq_flatMap {α β : Type} (f : α → List β) :
    ∀ (l : List α) (step : List β → α → List β),
    (∀ acc x, step acc x = acc ++ f x) →
    ∀ init : List β, l.foldl step init = init ++ l.flatMap f := by
  intro l
  induction l with
  | nil => intro step hstep init; simp
  | cons x rest ih =>
    intro step hstep init
    rw [List.foldl_cons, ih step hstep, hstep, List.flatMap_cons, List.append_assoc]

theorem flatMap_singleton_of_map {α β : Type} (f : α → β) (l : List α) :
    (l.flatMap fun x => [f x]) = l.map f := by
  induction l with
  | nil => rfl
  | cons x rest ih => simp [List.flatMap_cons, ih]

theorem toFlatData_eq_flattenSpec (pd : ParsedData) : toFlatData pd = flattenSpec pd := by
  unfold toFlatData flattenSpec
  rw [foldl_append_eq_flatMap _ pd.usagePoints _ ?hup []]
  · rw [List.nil_append]
  case hup =>
    intro acc up
    rw [foldl_append_eq_flatMap _ _ _ ?hmr acc]
    case hmr =>
      intro acc2 mrId
      cases hm : mapGet pd.meterReadings mrId with
      | none => simp
      | some mr =>
        show List.foldl _ acc2 _ = acc2 ++ _
        rw [foldl_append_eq_flatMap _ _ _ ?hib acc2]
        case hib =>
          intro acc3 ibId
          cases hib : mapGet pd.intervalBlocks ibId with
          | none => simp
          | some ib =>
            show List.foldl _ acc3 _ = acc3 ++ _
            rw [foldl_append_eq_flatMap (fun reading => [mkFlatRow up.1 mrId ibId
              ((mapGet pd.relationships.meterReadingToReadingTypes mrId).getD [])
              up.2 (match (mapGet pd.relationships.meterReadingToReadingTypes mrId).getD [] with
                    | [] => none
                    | rtId :: _ => mapGet pd.readingTypes rtId) reading])
              ib.intervalReadings _ (fun acc4 r => rfl) acc3]
            simp only [flatMap_singleton_of_map]

/-- **C6.** `toFlatData` emits exactly one FlatRow per interval
reading reached by the nested traversal — for every UsagePoint, for
every related MeterReading, with only the first related ReadingType,
for every related IntervalBlock, for every IntervalReading in that
block — preserving insertion order at every level, and a container
whose related entities are missing from the collections contributes
no rows: the accumulator loops equal the order-preserving nested
comprehension `flattenSpec`. -/
theorem C6_flatten_one_row_per_reading (pd : ParsedData) :
    toFlatData pd = flattenSpec pd :=
  toFlatData_eq_flattenSpec pd

/-- Every row of `toFlatData` is an `mkFlatRow` image arising from the
traversal. -/
theorem mem_toFlatData {pd : ParsedData} {row : FlatRow} (h : row ∈ toFlatData pd) :
    ∃ upId mrId ibId rts up rt r, row = mkFlatRow upId mrId ibId rts up rt r := by
  rw [toFlatData_eq_flattenSpec] at h
  unfold flattenSpec at h
  rw [List.mem_flatMap] at h
  obtain ⟨up, _, h⟩ := h
  rw [List.mem_flatMap] at h
  obtain ⟨mrId, _, h⟩ := h
  cases hm : mapGet pd.meterReadings mrId with
  | none =>
    rw [hm] at h
    simp at h
  | some mr =>
    rw [hm] at h
    simp only [List.mem_flatMap] at h
    obtain ⟨ibId, _, h⟩ := h
    cases hib : mapGet pd.intervalBlocks ibId with
    | none =>
      rw [hib] at h
      simp at h
    | some ib =>
      rw [hib] at h
      simp only [List.mem_map] at h
      obtain ⟨r, _, hr⟩ := h
      exact ⟨up.1, mrId, ibId, _, up.2, _, r, hr.symm⟩

/-! ## Field-level facts about `mkFlatRow` -/

theorem pow10_ne_zero (m : Int) : pow10 m ≠ 0 := by
  unfold pow10
  exact zpow_ne_zero m (by norm_num)

theorem mkFlatRow_value (upId mrId ibId : String) (rts : List String)
    (up : UsagePoint) (rt : Option ReadingType) (r : IntervalReading) :
    (mkFlatRow upId mrId ibId rts up rt r).value = r.value := rfl

theorem mkFlatRow_cost (upId mrId ibId : String) (rts : List String)
    (up : UsagePoint) (rt : Option ReadingType) (r : IntervalReading) :
    (mkFlatRow upId mrId ibId rts up rt r).cost = r.cost := rfl

theorem mkFlatRow_power_multiplier (upId mrId ibId : String) (rts : List String)
    (up : UsagePoint) (rt : Option ReadingType) (r : IntervalReading) :
    (mkFlatRow upId mrId ibId rts up rt r).power_multiplier
      = rt.map (fun t => t.powerOfTenMultiplier) := rfl

theorem mkFlatRow_calculated_value (upId mrId ibId : String) (rts : List String)
    (up : UsagePoint) (rt : Option ReadingType) (r : IntervalReading) :
    (mkFlatRow upId mrId ibId rts up rt r).calculated_value =
      match r.value with
      | none => none
      | some v => if v = 0 then none
          else some ((v : ℚ) * pow10 (match rt with
            | some t => t.powerOfTenMultiplier
            | none => 0)) := by
  show (if jsTruthyInt r.value then
          some ((r.value.getD 0 : ℚ) * pow10 (match rt with
            | some t => t.powerOfTenMultiplier
            | none => 0))
        else none) = _
  cases hv : r.value with
  | none => rfl
  | some v =>
    by_cases h0 : v = 0
    · subst h0
      simp [jsTruthyInt]
    · simp [jsTruthyInt, h0]

theorem mkFlatRow_calculated_cost (upId mrId ibId : String) (rts : List String)
    (up : UsagePoint) (rt : Option ReadingType) (r : IntervalReading) :
    (mkFlatRow upId mrId ibId rts up rt r).calculated_cost =
      match r.cost with
      | none => none
      | some c => if c = 0 then none
          else some (toFixed2 ((c : ℚ) * pow10 (match rt with
            | some t => t.powerOfTenMultiplier
            | none => 0) / 100)) := by
  show (match (if jsTruthyInt r.cost then
          some ((r.cost.getD 0 : ℚ) * pow10 (match rt with
            | some t => t.powerOfTenMultiplier
            | none => 0))
        else none : Option ℚ) with
        | some q => if q ≠ 0 then some (toFixed2 (q / 100)) else none
        | none => none) = _
  cases hc : r.cost with
  | none => rfl
  | some c =>
    by_cases h0 : c = 0
    · subst h0
      simp [jsTruthyInt]
    · have hq : ((c : ℚ) * pow10 (match rt with
          | some t => t.powerOfTenMultiplier
          | none => 0)) ≠ 0 :=
        mul_ne_zero (Int.cast_ne_zero.2 h0) (pow10_ne_zero _)
      simp [jsTruthyInt, h0, hq]

/-- **C1 (amended).** For every FlatRow produced by the flatten
traversal, with m the row's power multiplier (the column value, or 0
when that column is null) in [-12, 12]: `calculated_value` equals
`value × 10^m` whenever the raw value is present AND NONZERO, and is
null exactly when the raw value is null OR ZERO — the JS truthiness
test `reading.value ? … : null` drops a raw value of 0, so the
original claim's "including when the raw value is 0" fails. -/
theorem C1_calculated_value (pd : ParsedData) (row : FlatRow)
    (hrow : row ∈ toFlatData pd) (m : Int)
    (hm : row.power_multiplier = some m ∨ (row.power_multiplier = none ∧ m = 0))
    (_hlo : -12 ≤ m) (_hhi : m ≤ 12) :
    row.calculated_value =
      match row.value with
      | none => none
      | some v => if v = 0 then none else some ((v : ℚ) * pow10 m) := by
  obtain ⟨upId, mrId, ibId, rts, up, rt, r, rfl⟩ := mem_toFlatData hrow
  rw [mkFlatRow_value, mkFlatRow_calculated_value]
  rw [mkFlatRow_power_multiplier] at hm
  cases rt with
  | none =>
    rcases hm with hm | hm
    · simp at hm
    · rw [hm.2]
  | some t =>
    rcases hm with hm | hm
    · simp only [Option.map_some'] at hm
      rw [← Option.some_inj.1 hm]
    · simp at hm

/-- Witness for C1: the 320-valued reading with multiplier 3 in
`feedValue320` satisfies every hypothesis, and its calculated value
is 320 × 10³. -/
theorem C1_witness :
    rowValue320.calculated_value =
      match rowValue320.value with
      | none => none
      | some v => if v = 0 then none else some ((v : ℚ) * pow10 3) :=
  C1_calculated_value (parseFeed feedValue320) rowValue320 (by decide) 3
    (Or.inl (by decide)) (by decide) (by decide)

/-- Counterexample to C1 as stated: in `feedValueZero` the single
FlatRow has raw value present and equal to 0 with multiplier 0, yet
`calculated_value` is null rather than 0 × 10⁰ = 0. -/
theorem C1_counterexample :
    (toFlatData (parseFeed feedValueZero)).map
        (fun r => (r.value, r.power_multiplier, r.calculated_value))
      = [(some 0, some 0, none)] ∧ some ((0 : ℚ) * pow10 0) ≠ none := by
  constructor
  · decide
  · simp

/-- **C3 (amended).** For every FlatRow produced by the flatten
traversal, with m the row's power multiplier (column value, or 0 when
null): `calculated_cost` equals `(cost × 10^m) / 100` rounded to two
decimals and rendered as a fixed-point string — the power-of-ten
multiplier applied before the currency-subunit division — whenever the
raw cost is present AND NONZERO, and is null when the raw cost is null
OR ZERO; in particular cost=256347 with multiplier 0 gives "2563.47".
The original claim fails only at cost 0, where the code yields null
instead of "0.00". -/
theorem C3_calculated_cost (pd : ParsedData) (row : FlatRow)
    (hrow : row ∈ toFlatData pd) (m : Int)
    (hm : row.power_multiplier = some m ∨ (row.power_multiplier = none ∧ m = 0)) :
    row.calculated_cost =
      match row.cost with
      | none => none
      | some c => if c = 0 then none
          else some (toFixed2 ((c : ℚ) * pow10 m / 100)) := by
  obtain ⟨upId, mrId, ibId, rts, up, rt, r, rfl⟩ := mem_toFlatData hrow
  rw [mkFlatRow_cost, mkFlatRow_calculated_cost]
  rw [mkFlatRow_power_multiplier] at hm
  cases rt with
  | none =>
    rcases hm with hm | hm
    · simp at hm
    · rw [hm.2]
  | some t =>
    rcases hm with hm | hm
    · simp only [Option.map_some'] at hm
      rw [← Option.some_inj.1 hm]
    · simp at hm

/-- Witness for C3: the spec's worked example — cost 256347 with
multiplier 0 — flattens to the fixed-point string "2563.47". -/
theorem C3_witness :
    rowCost256347.calculated_cost =
        (match rowCost256347.cost with
        | none => none
        | some c => if c = 0 then none
            else some (toFixed2 ((c : ℚ) * pow10 0 / 100))) ∧
      rowCost256347.calculated_cost = some "2563.47" :=
  ⟨C3_calculated_cost (parseFeed feedCost256347) rowCost256347 (by decide) 0
      (Or.inl (by decide)),
    by decide⟩

/-- Counterexample to C3 as stated: in `feedCostZero` the single
FlatRow has raw cost present and equal to 0 with multiplier 0, yet
`calculated_cost` is null, while the claimed formula gives "0.00". -/
theorem C3_counterexample :
    (toFlatData (parseFeed feedCostZero)).map
        (fun r => (r.cost, r.power_multiplier, r.calculated_cost))
      = [(some 0, some 0, none)] ∧ toFixed2 ((0 : ℚ) * pow10 0 / 100) = "0.00" := by
  constructor
  · decide
  · decide

/-! ## end_time -/

theorem mkFlatRow_end_time (upId mrId ibId : String) (rts : List String)
    (up : UsagePoint) (rt : Option ReadingType) (r : IntervalReading) :
    (mkFlatRow upId mrId ibId rts up rt r).end_time =
      (if r.timePeriod.isSome &&
          jsTruthyInt (r.timePeriod.bind (fun tp => tp.start)) &&
          jsTruthyInt (r.timePeriod.bind (fun tp => tp.duration)) then
        formatTimestamp (some ((r.timePeriod.bind (fun tp => tp.start)).getD 0 +
                               (r.timePeriod.bind (fun tp => tp.duration)).getD 0))
      else none) := rfl

theorem parseIntOrNull_ne_zero (t : Option String) : parseIntOrNull t ≠ some 0 := by
  unfold parseIntOrNull
  cases t with
  | none => simp
  | some s =>
    cases h : jsParseInt s with
    | none => simp [h]
    | some n =>
      simp only [h]
      by_cases h0 : n = 0
      · simp [h0]
      · simp only [if_neg h0]
        intro hc
        exact h0 (Option.some_inj.1 hc)

/-- Every interval reading stored by `parseIntervalBlock` satisfies
the parse invariant: the `parseInt(..) || null` decoding never stores
a literal 0 in timePeriod start or duration. -/
theorem parseIntervalReading_readingParsed (e : IntervalReadingElem) :
    readingParsed (parseIntervalReading e) := by
  intro tp htp
  unfold parseIntervalReading at htp
  cases he : e.timePeriod with
  | none => rw [he] at htp; simp at htp
  | some tpe =>
    rw [he] at htp
    simp only [Option.map_some'] at htp
    injection htp with h
    subst h
    exact ⟨parseIntOrNull_ne_zero _, parseIntOrNull_ne_zero _⟩

/-- **C4 (amended).** For a FlatRow built from an interval reading
that satisfies the parse invariant (as every reading stored by
`parseIntervalBlock` does): `end_time` is non-null iff the reading's
timePeriod is present with both start and duration present AND their
sum is nonzero, and when non-null it equals the ISO-8601 rendering of
`start + duration` epoch seconds. The original claim's pure
"iff both present" fails when start + duration = 0, because
`formatTimestamp` returns null on the falsy timestamp 0. -/
theorem C4_end_time (upId mrId ibId : String) (rts : List String)
    (up : UsagePoint) (rt : Option ReadingType) (r : IntervalReading)
    (hr : readingParsed r) :
    ((mkFlatRow upId mrId ibId rts up rt r).end_time ≠ none ↔
      ∃ tp, r.timePeriod = some tp ∧ tp.start ≠ none ∧ tp.duration ≠ none ∧
        tp.start.getD 0 + tp.duration.getD 0 ≠ 0) ∧
    (∀ tp s d, r.timePeriod = some tp → tp.start = some s → tp.duration = some d →
      s + d ≠ 0 →
      (mkFlatRow upId mrId ibId rts up rt r).end_time
        = some (toISOString ((s + d) * 1000))) := by
  rw [mkFlatRow_end_time]
  constructor
  · constructor
    · intro hne
      by_cases h1 : (r.timePeriod.isSome &&
          jsTruthyInt (r.timePeriod.bind fun tp => tp.start) &&
          jsTruthyInt (r.timePeriod.bind fun tp => tp.duration)) = true
      · rw [if_pos h1] at hne
        simp only [Bool.and_eq_true] at h1
        obtain ⟨⟨hsome, hstart⟩, hdur⟩ := h1
        cases htp : r.timePeriod with
        | none => rw [htp] at hsome; simp at hsome
        | some tp =>
          rw [htp] at hstart hdur hne
          simp only [Option.some_bind] at hstart hdur hne
          cases hs : tp.start with
          | none => rw [hs] at hstart; simp [jsTruthyInt] at hstart
          | some sv =>
            cases hd : tp.duration with
            | none => rw [hd] at hdur; simp [jsTruthyInt] at hdur
            | some dv =>
              refine ⟨tp, rfl, by simp [hs], by simp [hd], ?_⟩
              rw [hs, hd]
              simp only [Option.getD_some]
              rw [hs, hd] at hne
              simp only [Option.getD_some] at hne
              intro hsum
              apply hne
              unfold formatTimestamp
              simp [jsTruthyInt, hsum]
      · rw [if_neg h1] at hne
        exact absurd rfl hne
    · rintro ⟨tp, htp, hs, hd, hsum⟩
      rw [htp]
      simp only [Option.some_bind, Option.isSome_some, Bool.true_and]
      cases hsval : tp.start with
      | none => exact absurd hsval hs
      | some sv =>
        cases hdval : tp.duration with
        | none => exact absurd hdval hd
        | some dv =>
          rw [hsval, hdval] at hsum
          simp only [Option.getD_some] at hsum
          have hs0 : sv ≠ 0 := fun h => (hr tp htp).1 (by rw [hsval, h])
          have hd0 : dv ≠ 0 := fun h => (hr tp htp).2 (by rw [hdval, h])
          rw [if_pos (by simp [jsTruthyInt, hs0, hd0] :
            (jsTruthyInt (some sv) && jsTruthyInt (some dv)) = true)]
          unfold formatTimestamp
          simp [jsTruthyInt, hsum]
  · intro tp sv dv htp hs hd hsum
    rw [htp]
    simp only [Option.some_bind, Option.isSome_some, Bool.true_and]
    rw [hs, hd]
    simp only [Option.getD_some]
    have hs0 : sv ≠ 0 := fun h => (hr tp htp).1 (by rw [hs, h])
    have hd0 : dv ≠ 0 := fun h => (hr tp htp).2 (by rw [hd, h])
    rw [if_pos (by simp [jsTruthyInt, hs0, hd0] :
      (jsTruthyInt (some sv) && jsTruthyInt (some dv)) = true)]
    unfold formatTimestamp
    simp [jsTruthyInt, hsum]

/-- Witness for C4: a reading decoded by `parseIntervalReading` with
start 1609459200 and duration 900 gets end_time equal to the ISO
timestamp for epoch second 1609460100, i.e. "2021-01-01T00:15:00.000Z". -/
theorem C4_witness :
    (mkFlatRow "up1" "mr1" "ib1" [] ⟨"up1", none, [], none⟩ none
        (parseIntervalReading ⟨some ⟨some "900", some "1609459200"⟩, some "25", none, none⟩)).end_time
      = some (toISOString ((1609459200 + 900) * 1000)) ∧
    toISOString ((1609459200 + 900) * 1000) = "2021-01-01T00:15:00.000Z" :=
  ⟨(C4_end_time "up1" "mr1" "ib1" [] ⟨"up1", none, [], none⟩ none
      (parseIntervalReading ⟨some ⟨some "900", some "1609459200"⟩, some "25", none, none⟩)
      (parseIntervalReading_readingParsed _)).2
      ⟨some 900, some 1609459200⟩ 1609459200 900 (by decide) (by decide) (by decide)
      (by decide),
    by decide⟩

/-- Counterexample to C4 as stated: in `feedZeroSum` the single
FlatRow has timePeriod start -900 and duration 900 both present
(start_time renders and duration is 900), yet end_time is null —
`formatTimestamp(start + duration)` hits the falsy timestamp 0. -/
theorem C4_counterexample :
    (toFlatData (parseFeed feedZeroSum)).map
        (fun r => (r.duration, r.start_time, r.end_time))
      = [(some 900, some "1969-12-31T23:45:00.000Z", none)] := by
  decide

/-- **C5.** For every entry, `parseEntry` classifies a content payload
as exactly one resource type, probing UsagePoint, MeterReading,
IntervalBlock, ReadingType, LocalTimeParameters, UsageSummary in that
fixed priority order, stores the entry under the first type found and
ignores any further resource-shaped content; an entry matching none
of the six types (or with no content) contributes to no collection.
Formally: the sequential if/else-if chain equals the tagged-union
dispatch `parseEntrySpec`, and unclassifiable entries leave the
document unchanged. -/
theorem C5_parseEntry_first_match (e : Entry) (pd : ParsedData) :
    parseEntry e pd = parseEntrySpec e pd ∧
    (∀ c, e.content = some c → classifyEntry c = none → parseEntry e pd = pd) ∧
    (e.content = none → parseEntry e pd = pd) := by
  obtain ⟨eid, content, links⟩ := e
  refine ⟨?_, ?_, ?_⟩
  · cases content with
    | none => rfl
    | some c =>
      obtain ⟨u, m, ib, rt, ltp, us⟩ := c
      cases u <;> cases m <;> cases ib <;> cases rt <;> cases ltp <;> cases us <;> rfl
  · intro c hc hcl
    cases content with
    | none => rfl
    | some c2 =>
      injection hc with hc
      cases hc
      obtain ⟨u, m, ib, rt, ltp, us⟩ := c
      cases u <;> cases m <;> cases ib <;> cases rt <;> cases ltp <;> cases us <;>
        first
        | rfl
        | simp [classifyEntry] at hcl
  · intro hc
    cases content with
    | none => rfl
    | some c => exact absurd hc (by simp)

/-- Witness for C5: a content payload with none of the six resource
elements classifies as none and contributes nothing. -/
theorem C5_witness :
    parseEntry ⟨"e1", some emptyContent, []⟩ emptyParsedData = emptyParsedData :=
  (C5_parseEntry_first_match ⟨"e1", some emptyContent, []⟩ emptyParsedData).2.1
    emptyContent rfl (by decide)

/-! ## CSV quoting -/

theorem escapeQuotes_ne_nil (x : Char) (xs : List Char) : escapeQuotes (x :: xs) ≠ [] := by
  by_cases h : x = '"' <;> simp [escapeQuotes, h]

theorem length_le_escapeQuotes : ∀ l : List Char, l.length ≤ (escapeQuotes l).length := by
  intro l
  induction l with
  | nil => simp [escapeQuotes]
  | cons c rest ih =>
    by_cases h : c = '"'
    · simp only [escapeQuotes, if_pos h, List.length_cons]
      omega
    · simp only [escapeQuotes, if_neg h, List.length_cons]
      omega

theorem unescapeQuotes_escapeQuotes : ∀ l : List Char, unescapeQuotes (escapeQuotes l) = l := by
  intro l
  induction l with
  | nil => rfl
  | cons c rest ih =>
    by_cases hc : c = '"'
    · subst hc
      show unescapeQuotes ('"' :: '"' :: escapeQuotes rest) = _
      simp only [unescapeQuotes, if_pos rfl]
      rw [ih]
      simp
    · rw [show escapeQuotes (c :: rest) = c :: escapeQuotes rest from by
        simp [escapeQuotes, hc]]
      cases he : escapeQuotes rest with
      | nil =>
        cases rest with
        | nil => simp [unescapeQuotes]
        | cons x xs => exact absurd he (escapeQuotes_ne_nil x xs)
      | cons e1 es =>
        simp only [unescapeQuotes, if_neg hc]
        rw [← he, ih]

theorem string_mk_data (s : String) : String.mk s.data = s := by
  cases s
  rfl

theorem strContainsChar_of_head {s : String} {c : Char} (h : s.data.head? = some c) :
    strContainsChar s c = true := by
  unfold strContainsChar
  cases hd : s.data with
  | nil => rw [hd] at h; simp at h
  | cons x xs =>
    rw [hd] at h
    simp only [List.head?_cons, Option.some_inj] at h
    subst h
    simp

theorem decodeField_encodeField (s : String) : decodeField (encodeField s) = s := by
  unfold encodeField
  by_cases hq : needsQuoting s = true
  · rw [if_pos hq]
    unfold decodeField
    rw [if_pos]
    · show String.mk (unescapeQuotes ((('"' :: (escapeQuotes s.data ++ ['"'])).drop 1).dropLast)) = s
      rw [List.drop_one, List.tail_cons, List.dropLast_concat, unescapeQuotes_escapeQuotes,
        string_mk_data]
    · refine ⟨?_, ?_, ?_⟩
      · show 2 ≤ ('"' :: (escapeQuotes s.data ++ ['"'])).length
        simp
      · rfl
      · show ('"' :: (escapeQuotes s.data ++ ['"'])).getLast? = some '"'
        rw [← List.cons_append, List.getLast?_concat]
  · rw [if_neg hq]
    unfold decodeField
    rw [if_neg]
    rintro ⟨_, hhead, _⟩
    apply hq
    have : strContainsChar s '"' = true := strContainsChar_of_head hhead
    unfold needsQuoting
    rw [this]
    simp

theorem encodeField_ne_iff (s : String) :
    encodeField s ≠ s ↔ needsQuoting s = true := by
  constructor
  · intro h
    by_cases hq : needsQuoting s = true
    · exact hq
    · exact absurd (by unfold encodeField; rw [if_neg hq]) h
  · intro hq
    unfold encodeField
    rw [if_pos hq]
    intro h
    have hlen := congrArg (fun t => t.data.length) h
    simp only [List.length_cons, List.length_append, List.length_singleton] at hlen
    have := length_le_escapeQuotes s.data
    omega

/-- **C7 (amended).** In `toCSV` a field is wrapped in double quotes
with internal quotes doubled iff it contains a comma, double quote,
carriage return or newline, or has a leading or trailing SPACE
character (U+0020) — not arbitrary whitespace: a field with a leading
tab is emitted unquoted. The encoding round-trips through a
standards-compliant CSV field split, and `a,b"c` encodes to
`"a,b""c"` and decodes back exactly. -/
theorem C7_quoting_policy (s : String) :
    (encodeField s ≠ s ↔
      (strContainsChar s ',' || strContainsChar s '"' ||
       strContainsChar s '\n' || strContainsChar s '\r' ||
       s.data.head? == some ' ' || s.data.getLast? == some ' ') = true) ∧
    decodeField (encodeField s) = s ∧
    encodeField "a,b\"c" = "\"a,b\"\"c\"" ∧
    decodeField "\"a,b\"\"c\"" = "a,b\"c" :=
  ⟨encodeField_ne_iff s, decodeField_encodeField s, by decide, by decide⟩

/-- Counterexample to C7 as stated: the field "\tx" has leading
whitespace (a tab), so the claim requires it to be quoted, but
`needsQuoting` only tests the space character and the field is
emitted unquoted and unchanged. -/
theorem C7_counterexample :
    claimNeedsQuoting "\tx" = true ∧ needsQuoting "\tx" = false ∧
      encodeField "\tx" = "\tx" := by
  refine ⟨by decide, by decide, by decide⟩

/-- **C8.** `convertToCSV` on a null or empty row collection fails
with the EmptyDataError message and never returns CSV text for zero
rows; `validateData(null)` and `validateData([])` both return
isValid=false with a non-empty errors list and all-zero stats. -/
theorem C8_empty_input_handling :
    (∀ h, convertToCSV none h = Except.error "No data provided for CSV conversion") ∧
    (∀ h, convertToCSV (some []) h = Except.error "No data provided for CSV conversion") ∧
    validateData none
      = ⟨false, ["No data provided"], [], ⟨0, 0, 0, 0⟩⟩ ∧
    validateData (some [])
      = ⟨false, ["Data array is empty"], [], ⟨0, 0, 0, 0⟩⟩ :=
  ⟨fun _ => rfl, fun _ => rfl, rfl, rfl⟩

/-- **C9 (amended).** A FlatRow emitted from a MeterReading with no
related ReadingType has null reading_type_id, commodity, uom,
interval_length and power_multiplier columns, yet the derived fields
are still computed with multiplier 0: calculated_value equals the raw
value and calculated_cost equals the raw cost over 100 — for NONZERO
raw values; a present raw value or cost of 0 derives to null (JS
truthiness), which is where the original claim fails. -/
theorem C9_no_readingtype_derivation (upId mrId ibId : String) (up : UsagePoint)
    (r : IntervalReading) :
    (mkFlatRow upId mrId ibId [] up none r).reading_type_id = none ∧
    (mkFlatRow upId mrId ibId [] up none r).commodity = none ∧
    (mkFlatRow upId mrId ibId [] up none r).uom = none ∧
    (mkFlatRow upId mrId ibId [] up none r).interval_length = none ∧
    (mkFlatRow upId mrId ibId [] up none r).power_multiplier = none ∧
    (mkFlatRow upId mrId ibId [] up none r).calculated_value =
      (match r.value with
       | none => none
       | some v => if v = 0 then none else some ((v : ℚ) * pow10 0)) ∧
    (mkFlatRow upId mrId ibId [] up none r).calculated_cost =
      (match r.cost with
       | none => none
       | some c => if c = 0 then none else some (toFixed2 ((c : ℚ) * pow10 0 / 100))) :=
  ⟨rfl, rfl, rfl, rfl, rfl,
    mkFlatRow_calculated_value upId mrId ibId [] up none r,
    mkFlatRow_calculated_cost upId mrId ibId [] up none r⟩

/-- Counterexample to C9 as stated: in `feedNoReadingType` (no
ReadingType anywhere) the single FlatRow has raw value present and
equal to 0, but calculated_value is null rather than equal to the raw
value; the cost 500 does derive to "5.00". -/
theorem C9_counterexample :
    (toFlatData (parseFeed feedNoReadingType)).map
        (fun r => (r.reading_type_id, r.commodity, r.uom, r.interval_length,
                   r.power_multiplier))
      = [((none : Option String), (none : Option String), (none : Option String),
          (none : Option Int), (none : Option Int))] ∧
    (toFlatData (parseFeed feedNoReadingType)).map
        (fun r => (r.value, r.calculated_value, r.cost, r.calculated_cost))
      = [((some (0 : Int)), (none : Option ℚ), (some (500 : Int)), (some "5.00"))] := by
  refine ⟨by decide, by decide⟩

/-- **C10.** `generatePreview` on null or empty input returns the
fixed value {headers: [], rows: [], totalRows: 0, isPreview: false};
for any input it returns `rows.slice(0, maxRows)` (never more than
maxRows rows), the total count and the truncation flag. Mutation of
the input cannot occur: the embedding is a pure function of its
arguments. -/
theorem C10_generatePreview (m : Nat) :
    generatePreview none m = ⟨[], [], 0, false⟩ ∧
    generatePreview (some []) m = ⟨[], [], 0, false⟩ ∧
    (∀ rows : List Row, generatePreview (some rows) m =
      ⟨(match rows with | r :: _ => r.map Prod.fst | [] => []),
       rows.take m, rows.length, decide (m < rows.length)⟩) ∧
    (∀ rows : List Row, (generatePreview (some rows) m).rows.length ≤ m) := by
  have h3 : ∀ rows : List Row, generatePreview (some rows) m =
      ⟨(match rows with | r :: _ => r.map Prod.fst | [] => []),
       rows.take m, rows.length, decide (m < rows.length)⟩ := by
    intro rows
    cases rows with
    | nil => simp [generatePreview]
    | cons r rest => simp [generatePreview]
  refine ⟨rfl, by simpa using h3 [], h3, ?_⟩
  intro rows
  rw [h3 rows]
  show (rows.take m).length ≤ m
  rw [List.length_take]
  exact Nat.min_le_left _ _
